import Mathlib

/-!
# servr: arithmetic endpoints over HTTPS with a sums table

A shallow embedding of `main.go`: the number parser `retrieveNumbers`, the
handlers `HelloChameleon`, `Sum`, `SumDB`, `Reset`, and the store functions
`createSumTableIfDoesntExist` and `registerSumInDB`.

Conventions of the embedding.

* Go `int` is a 64-bit two's complement integer: values are `Int`, and every
  arithmetic result is passed through `wrapInt`.
* A Go `map[string][]string` is the list of its entries, one per distinct key,
  in the order in which `range` happens to visit them.  `len` of the map is the
  length of that list.
* A Go run-time fault (index out of range) is the outcome `none`.
* `http.ResponseWriter` is explicit state: the first `WriteHeader` fixes the
  status line and the header that is sent, later calls are ignored.
* The database is explicit state; failures of the engine are given by a record
  of injected faults, one field per fallible call in the source.
-/

deriving instance DecidableEq for Except

namespace Servr

/-! ## Go `int` -/

/-- Smallest value of Go `int` on a 64-bit target. -/
def minInt : Int := -9223372036854775808

/-- Largest value of Go `int` on a 64-bit target. -/
def maxInt : Int := 9223372036854775807

/-- Reduction of a mathematical integer to the 64-bit two's complement value
that Go arithmetic produces. -/
def wrapInt (z : Int) : Int :=
  (z + 9223372036854775808) % 18446744073709551616 - 9223372036854775808

/-- Go `a + b` on `int`. -/
def goAdd (a b : Int) : Int := wrapInt (a + b)

/-- Membership in the range of Go `int`. -/
def fitsInt (z : Int) : Prop := minInt ≤ z ∧ z ≤ maxInt

instance (z : Int) : Decidable (fitsInt z) := by
  unfold fitsInt; exact inferInstance

/-! ## `strconv` -/

/-- Value of a decimal digit, `none` for any other character. -/
def digitVal (c : Char) : Option Nat :=
  if 48 ≤ c.toNat ∧ c.toNat ≤ 57 then some (c.toNat - 48) else none

/-- Digit loop of `strconv.ParseUint` in base 10: `none` is a syntax error. -/
def parseDigits : List Char → Nat → Option Nat
  | [], acc => some acc
  | c :: cs, acc =>
    match digitVal c with
    | none => none
    | some d => parseDigits cs (acc * 10 + d)

/-- Library function `strconv.ParseUint(s, 10, 0)` without the range check, which
the caller does: the empty string is a syntax error. -/
def ParseUint (cs : List Char) : Option Nat :=
  match cs with
  | [] => none
  | _ => parseDigits cs 0

/-- Library function `strconv.Atoi` on a 64-bit target: an optional sign followed
by one or more decimal digits, whose value lies in the range of `int` (the fast
and the slow path of the library agree on this).  A character that is not an
ASCII digit is a syntax error in both.  `none` stands for
either error of the library (syntax or range); the callers in `main.go` drop
the text of that error. -/
def Atoi (s : String) : Option Int :=
  match s.data with
  | [] => none
  | c :: rest =>
    if c = '-' then
      match ParseUint rest with
      | none => none
      | some un => if un > 9223372036854775808 then none else some (-(un : Int))
    else
      match ParseUint (if c = '+' then rest else c :: rest) with
      | none => none
      | some un => if un ≥ 9223372036854775808 then none else some (un : Int)

/-- Library function `strconv.Itoa`: the decimal string of an integer. -/
def Itoa (n : Int) : String :=
  if n < 0 then "-" ++ Nat.repr n.natAbs else Nat.repr n.natAbs

/-! ## Number parser -/

/-- Go `url.Values`, `map[string][]string`, as its entries in iteration order. -/
abbrev Values := List (String × List String)

/-- Text of the error for a wrong number of parameters. -/
def invalidInputCount : String :=
  "no se recibieron los dos números enteros en la URL"

/-- Text built by `fmt.Errorf("\"%v\" no es un valor válido para \"%v\"", v, key)`. -/
def invalidNumber (v key : String) : String :=
  "\"" ++ v ++ "\" no es un valor válido para \"" ++ key ++ "\""

/-- The `for key, value := range values` loop of `retrieveNumbers`, with the
slice `numbers` collected so far.  `none` is the index fault of `value[0]`. -/
def retrieveLoop : Values → List Int → Option (Except String (List Int))
  | [], numbers => some (.ok numbers)
  | (key, value) :: rest, numbers =>
    match value[0]? with
    | none => none
    | some v0 =>
      match Atoi v0 with
      | none => some (.error (invalidNumber v0 key))
      | some number => retrieveLoop rest (numbers ++ [number])

/-- Function `retrieveNumbers`: the two operands, an error, or `none` for a
run-time index fault (`value[0]`, `numbers[0]`, `numbers[1]`). -/
def retrieveNumbers (values : Values) : Option (Except String (Int × Int)) :=
  if values.length ≠ 2 then
    some (.error invalidInputCount)
  else
    match retrieveLoop values [] with
    | none => none
    | some (.error e) => some (.error e)
    | some (.ok numbers) =>
      match numbers[0]?, numbers[1]? with
      | some a, some b => some (.ok (a, b))
      | _, _ => none

/-! ## `http.ResponseWriter` -/

/-- State of a `net/http` response: the header map the handler edits, whether
the status line has been written, the status and header that were written, the
body bytes accepted so far, and the error (if any) that every `Write` on this
connection returns. -/
structure ResponseWriter where
  header : List (String × String)
  wroteHeader : Bool
  status : Nat
  sentHeader : List (String × String)
  body : String
  writeErr : Option String
deriving DecidableEq, Repr

/-- The response writer handed to a handler at the start of a request. -/
def newResponseWriter (writeErr : Option String) : ResponseWriter :=
  { header := [], wroteHeader := false, status := 0, sentHeader := [], body := "",
    writeErr := writeErr }

/-- Constant `http.StatusOK`. -/
def StatusOK : Nat := 200

/-- Constant `http.StatusNoContent`. -/
def StatusNoContent : Nat := 204

/-- Constant `http.StatusInternalServerError`. -/
def StatusInternalServerError : Nat := 500

/-- Call `w.Header().Set(key, value)`. -/
def ResponseWriter.setHeader (w : ResponseWriter) (key value : String) : ResponseWriter :=
  { w with header := (key, value) :: w.header.filter (fun kv => kv.1 ≠ key) }

/-- Call `w.WriteHeader(code)`: the first call fixes the status and the header sent;
a later call is superfluous and changes nothing. -/
def ResponseWriter.WriteHeader (w : ResponseWriter) (code : Nat) : ResponseWriter :=
  if w.wroteHeader then w
  else { w with wroteHeader := true, status := code, sentHeader := w.header }

/-- Call `w.Write(data)`: writes the status line with 200 when none was written, then
either fails with the connection's error or appends the data to the body. -/
def ResponseWriter.Write (w : ResponseWriter) (data : String) :
    ResponseWriter × Option String :=
  let w1 := w.WriteHeader StatusOK
  match w1.writeErr with
  | some e => (w1, some e)
  | none => ({ w1 with body := w1.body ++ data }, none)

/-- Library function `http.Error(w, msg, code)`: sets the plain-text content type, writes the
status line and prints the message followed by a newline, ignoring the result
of that write. -/
def httpError (w : ResponseWriter) (msg : String) (code : Nat) : ResponseWriter :=
  let w1 := w.setHeader "Content-Type" "text/plain; charset=utf-8"
  let w2 := w1.setHeader "X-Content-Type-Options" "nosniff"
  let w3 := w2.WriteHeader code
  (w3.Write (msg ++ "\n")).1

/-- Content type sent with the status line. -/
def ResponseWriter.contentType (w : ResponseWriter) : Option String :=
  (w.sentHeader.find? (fun kv => kv.1 = "Content-Type")).map Prod.snd

/-- Text of `fmt.Sprint("Opps algo salió mal. Error: ", err)`. -/
def oppsSprint (err : String) : String := "Opps algo salió mal. Error: " ++ err

/-- Text of `fmt.Sprintf("Opps!, algo salió mal. Error: %v", err)`. -/
def oppsSprintf (err : String) : String := "Opps!, algo salió mal. Error: " ++ err

/-! ## Handlers without storage -/

/-- Handler `HelloChameleon`. -/
def HelloChameleon (w : ResponseWriter) : ResponseWriter :=
  let w1 := w.setHeader "Content-Type" "text/plain; charset=utf-8"
  let w2 := w1.WriteHeader StatusOK
  match w2.Write "Hello Chameleon" with
  | (w3, some err) => httpError w3 (oppsSprintf err) StatusInternalServerError
  | (w3, none) => w3

/-- Handler `Sum` on the query `r.URL.Query()`; `none` when the handler faults. -/
def Sum (w : ResponseWriter) (query : Values) : Option ResponseWriter :=
  match retrieveNumbers query with
  | none => none
  | some (.error err) => some (httpError w (oppsSprint err) StatusInternalServerError)
  | some (.ok (a, b)) =>
    let w1 := w.setHeader "Content-Type" "text/plain; charset=utf-8"
    let w2 := w1.WriteHeader StatusOK
    let result := Itoa (goAdd a b)
    match w2.Write result with
    | (w3, some err) => some (httpError w3 (oppsSprintf err) StatusInternalServerError)
    | (w3, none) => some w3

/-! ## Sum store -/

/-- One row of the table `sums`. -/
structure SumRecord where
  id : Nat
  first_number : Int
  second_number : Int
  total : Int
deriving DecidableEq, Repr

/-- Column definitions of the `CREATE TABLE IF NOT EXISTS sums` statement. -/
def sumsSchema : String :=
  "id INTEGER PRIMARY KEY AUTOINCREMENT, first_number INTEGER NOT NULL, second_number INTEGER NOT NULL, total INTEGER NOT NULL"

/-- The table `sums`: its column definitions, the largest row id handed out so
far (the AUTOINCREMENT counter) and its rows in insertion order. -/
structure Table where
  schema : String
  seq : Nat
  rows : List SumRecord
deriving DecidableEq, Repr

/-- The database file `./servr.db`: `none` when it holds no table `sums`. -/
abbrev DB := Option Table

/-- Failures of the storage engine during one call, one field per fallible
library call in the source: `sql.Open`, `db.Prepare`, `Exec`, `db.Query`,
`count.Next` (which reports failure by returning false), `count.Scan` and
`result.RowsAffected`. -/
structure Faults where
  openErr : Option String
  prepareErr : Option String
  execErr : Option String
  queryErr : Option String
  nextOk : Bool
  scanErr : Option String
  affectedErr : Option String
deriving DecidableEq, Repr

/-- The engine working without failure. -/
def noFaults : Faults :=
  { openErr := none, prepareErr := none, execErr := none, queryErr := none,
    nextOk := true, scanErr := none, affectedErr := none }

/-- Error of the engine for a statement that names a missing table. -/
def noSuchTable : String := "no such table: sums"

/-- Function `createSumTableIfDoesntExist`: the new state and the returned error
(`none` for `nil`).  `CREATE TABLE IF NOT EXISTS` creates the table when the
file holds none and does nothing otherwise. -/
def createSumTableIfDoesntExist (f : Faults) (db : DB) : DB × Option String :=
  match f.openErr with
  | some err => (db, some err)
  | none =>
    match f.execErr with
    | some err => (db, some err)
    | none =>
      match db with
      | some t => (some t, none)
      | none => (some { schema := sumsSchema, seq := 0, rows := [] }, none)

/-- Function `registerSumInDB`: the new state and either the returned count or an
error.  `Prepare` fails when the table is missing; `Exec` appends the row
`(a, b, a + b)` under the next row id; the count is read by the loop
`for count.Next()`, which leaves `total` at 0 when `Next` reports no row. -/
def registerSumInDB (f : Faults) (db : DB) (a b : Int) : DB × Except String Int :=
  match f.openErr with
  | some err => (db, .error err)
  | none =>
    match f.prepareErr with
    | some err => (db, .error err)
    | none =>
      match db with
      | none => (db, .error noSuchTable)
      | some t =>
        match f.execErr with
        | some err => (db, .error err)
        | none =>
          let t1 : Table :=
            { t with seq := t.seq + 1,
                     rows := t.rows ++ [{ id := t.seq + 1, first_number := a,
                                          second_number := b, total := goAdd a b }] }
          match f.queryErr with
          | some err => (some t1, .error err)
          | none =>
            if f.nextOk then
              match f.scanErr with
              | some err => (some t1, .error err)
              | none => (some t1, .ok (t1.rows.length : Int))
            else (some t1, .ok 0)

/-- Handler `SumDB`: the response (`none` when the handler faults) and the new
state of the database. -/
def SumDB (w : ResponseWriter) (f : Faults) (db : DB) (query : Values) :
    Option ResponseWriter × DB :=
  match retrieveNumbers query with
  | none => (none, db)
  | some (.error err) => (some (httpError w (oppsSprint err) StatusInternalServerError), db)
  | some (.ok (a, b)) =>
    match registerSumInDB f db a b with
    | (db1, .error err) =>
      (some (httpError w (oppsSprint err) StatusInternalServerError), db1)
    | (db1, .ok total) =>
      let w1 := w.setHeader "Content-Type" "text/plain; charset=utf-8"
      let w2 := w1.WriteHeader StatusOK
      let result := Itoa total
      match w2.Write result with
      | (w3, some err) =>
        (some (httpError w3 (oppsSprintf err) StatusInternalServerError), db1)
      | (w3, none) => (some w3, db1)

/-- Handler `Reset`: the response and the new state of the database. -/
def Reset (w : ResponseWriter) (f : Faults) (db : DB) : ResponseWriter × DB :=
  match f.openErr with
  | some err => (httpError w (oppsSprint err) StatusInternalServerError, db)
  | none =>
    match f.execErr with
    | some err => (httpError w (oppsSprint err) StatusInternalServerError, db)
    | none =>
      match db with
      | none => (httpError w (oppsSprint noSuchTable) StatusInternalServerError, db)
      | some t =>
        let db1 : DB := some { t with rows := [] }
        match f.affectedErr with
        | some err => (httpError w (oppsSprint err) StatusInternalServerError, db1)
        | none => (w.WriteHeader StatusNoContent, db1)

/-! ## Serial runs and reachable states -/

/-- One `SumDB` request of a serial run: its query, the behaviour of the
storage engine during the request and of the connection the answer is written
to. -/
structure Call where
  query : Values
  faults : Faults
  writeErr : Option String
deriving DecidableEq, Repr

/-- A call of `SumDB` in which nothing fails: the query yields two operands,
every storage call used by `registerSumInDB` succeeds and the body is written. -/
def Call.successful (c : Call) : Prop :=
  (∃ a b, retrieveNumbers c.query = some (.ok (a, b))) ∧
  c.faults.openErr = none ∧ c.faults.prepareErr = none ∧ c.faults.execErr = none ∧
  c.faults.queryErr = none ∧ c.faults.nextOk = true ∧ c.faults.scanErr = none ∧
  c.writeErr = none

/-- Serial execution of `SumDB` requests, each on a response writer of its own:
the final state of the database and the responses in order. -/
def serveSumDB : DB → List Call → DB × List (Option ResponseWriter)
  | db, [] => (db, [])
  | db, c :: cs =>
    let r := SumDB (newResponseWriter c.writeErr) c.faults db c.query
    let rest := serveSumDB r.2 cs
    (rest.1, r.1 :: rest.2)

/-- States of the database reachable from a table without rows by `SumDB` and
`Reset` requests, whatever their queries, response writers and engine
failures. -/
inductive Reachable : DB → Prop
  | empty (t : Table) (h : t.rows = []) : Reachable (some t)
  | sumDB (db : DB) (w : ResponseWriter) (f : Faults) (query : Values) :
      Reachable db → Reachable (SumDB w f db query).2
  | reset (db : DB) (w : ResponseWriter) (f : Faults) :
      Reachable db → Reachable (Reset w f db).2

/-! ## Basic facts -/

theorem wrapInt_of_fitsInt (z : Int) (h : fitsInt z) : wrapInt z = z := by
  unfold fitsInt minInt maxInt at h
  unfold wrapInt
  omega

theorem retrieveNumbers_of_length_ne (query : Values) (h : query.length ≠ 2) :
    retrieveNumbers query = some (.error invalidInputCount) := by
  simp [retrieveNumbers, h]

theorem retrieveNumbers_pair (k1 k2 v1 v2 : String) (r1 r2 : List String) (a b : Int)
    (h1 : Atoi v1 = some a) (h2 : Atoi v2 = some b) :
    retrieveNumbers [(k1, v1 :: r1), (k2, v2 :: r2)] = some (.ok (a, b)) := by
  simp [retrieveNumbers, retrieveLoop, h1, h2]

theorem retrieveNumbers_pair_first_invalid (k1 k2 v1 : String) (r1 : List String)
    (e2 : List String) (h1 : Atoi v1 = none) :
    retrieveNumbers [(k1, v1 :: r1), (k2, e2)] = some (.error (invalidNumber v1 k1)) := by
  simp [retrieveNumbers, retrieveLoop, h1]

theorem retrieveNumbers_pair_second_invalid (k1 k2 v1 v2 : String) (r1 r2 : List String)
    (a : Int) (h1 : Atoi v1 = some a) (h2 : Atoi v2 = none) :
    retrieveNumbers [(k1, v1 :: r1), (k2, v2 :: r2)] = some (.error (invalidNumber v2 k2)) := by
  simp [retrieveNumbers, retrieveLoop, h1, h2]

theorem httpError_new_status (werr : Option String) (msg : String) :
    (httpError (newResponseWriter werr) msg StatusInternalServerError).status = 500 := by
  cases werr <;> rfl

theorem httpError_new_body (msg : String) :
    (httpError (newResponseWriter none) msg StatusInternalServerError).body = msg ++ "\n" := by
  simp [httpError, newResponseWriter, ResponseWriter.Write, ResponseWriter.WriteHeader,
    ResponseWriter.setHeader]

theorem Sum_of_error (w : ResponseWriter) (query : Values) (err : String)
    (h : retrieveNumbers query = some (.error err)) :
    Sum w query = some (httpError w (oppsSprint err) StatusInternalServerError) := by
  simp [Sum, h]

theorem SumDB_of_error (w : ResponseWriter) (f : Faults) (db : DB) (query : Values)
    (err : String) (h : retrieveNumbers query = some (.error err)) :
    SumDB w f db query
      = (some (httpError w (oppsSprint err) StatusInternalServerError), db) := by
  simp [SumDB, h]

theorem Sum_of_ok (query : Values) (a b : Int)
    (h : retrieveNumbers query = some (.ok (a, b))) :
    Sum (newResponseWriter none) query
      = some { header := [("Content-Type", "text/plain; charset=utf-8")],
               wroteHeader := true, status := 200,
               sentHeader := [("Content-Type", "text/plain; charset=utf-8")],
               body := Itoa (goAdd a b), writeErr := none } := by
  simp [Sum, h, newResponseWriter, ResponseWriter.Write, ResponseWriter.WriteHeader,
    ResponseWriter.setHeader, StatusOK]

/-! ## Number parser and `Sum` -/

/-- C1, as stated, fails: for the query `a=9223372036854775807&b=1` both values
parse, yet the body of the `Sum` response is `-9223372036854775808`, which is
not the decimal string of the integer sum `9223372036854775808`. -/
theorem Sum_body_overflow :
    Atoi "9223372036854775807" = some 9223372036854775807 ∧ Atoi "1" = some 1 ∧
    (Sum (newResponseWriter none) [("a", ["9223372036854775807"]), ("b", ["1"])]).map
        (fun w => (w.status, w.body)) = some (200, "-9223372036854775808") ∧
    Itoa (9223372036854775807 + 1) = "9223372036854775808" := by
  decide

/-- C1, amended: for a query of exactly two entries whose values parse as `a`
and `b`, `Sum` on a fresh response writer answers with status 200, content type
`text/plain; charset=utf-8` and, as body, the decimal string of `a + b` reduced
to a 64-bit two's complement integer; this is the decimal string of `a + b`
itself whenever `a + b` lies in the range of `int`. -/
theorem Sum_two_integers (k1 k2 v1 v2 : String) (r1 r2 : List String) (a b : Int)
    (h1 : Atoi v1 = some a) (h2 : Atoi v2 = some b) :
    ∃ w, Sum (newResponseWriter none) [(k1, v1 :: r1), (k2, v2 :: r2)] = some w ∧
      w.status = 200 ∧ w.contentType = some "text/plain; charset=utf-8" ∧
      w.body = Itoa (wrapInt (a + b)) ∧ (fitsInt (a + b) → w.body = Itoa (a + b)) := by
  refine ⟨_, Sum_of_ok _ a b (retrieveNumbers_pair k1 k2 v1 v2 r1 r2 a b h1 h2), rfl, rfl, rfl, ?_⟩
  intro hf
  show Itoa (goAdd a b) = Itoa (a + b)
  rw [goAdd, wrapInt_of_fitsInt _ hf]

/-- Witness for `Sum_two_integers`: the query `a=20&b=22`. -/
theorem Sum_two_integers_witness :
    ∃ w, Sum (newResponseWriter none) [("a", "20" :: []), ("b", "22" :: [])] = some w ∧
      w.status = 200 ∧ w.contentType = some "text/plain; charset=utf-8" ∧
      w.body = Itoa (wrapInt (20 + 22)) ∧ (fitsInt (20 + 22) → w.body = Itoa (20 + 22)) :=
  Sum_two_integers "a" "b" "20" "22" [] [] 20 22 (by decide) (by decide)

/-- C2: when the number of entries of the query (one entry per distinct
parameter name, whatever the names and values) is not 2, `retrieveNumbers`
fails with the input-count error, and `Sum` and `SumDB` both answer with status
500 and, when the connection accepts the write, a body made of the text
`Opps algo salió mal. Error: `, that error's text and a newline; `SumDB` leaves
the database as it was. -/
theorem count_not_two (query : Values) (h : query.length ≠ 2) (werr : Option String)
    (f : Faults) (db : DB) :
    retrieveNumbers query = some (.error invalidInputCount) ∧
    (∃ w, Sum (newResponseWriter werr) query = some w ∧ w.status = 500 ∧
      (werr = none →
        w.body = "Opps algo salió mal. Error: " ++ invalidInputCount ++ "\n")) ∧
    (∃ w, SumDB (newResponseWriter werr) f db query = (some w, db) ∧ w.status = 500 ∧
      (werr = none →
        w.body = "Opps algo salió mal. Error: " ++ invalidInputCount ++ "\n")) := by
  have hr := retrieveNumbers_of_length_ne query h
  refine ⟨hr, ⟨_, Sum_of_error _ _ _ hr, httpError_new_status _ _, ?_⟩,
    ⟨_, SumDB_of_error _ f db _ _ hr, httpError_new_status _ _, ?_⟩⟩
  · intro hw; subst hw; exact httpError_new_body _
  · intro hw; subst hw; exact httpError_new_body _

/-- Witness for `count_not_two`: the query `a=1`, with one entry. -/
theorem count_not_two_witness :
    retrieveNumbers [("a", ["1"])] = some (.error invalidInputCount) ∧
    (∃ w, Sum (newResponseWriter none) [("a", ["1"])] = some w ∧ w.status = 500 ∧
      ((none : Option String) = none →
        w.body = "Opps algo salió mal. Error: " ++ invalidInputCount ++ "\n")) ∧
    (∃ w, SumDB (newResponseWriter none) noFaults none [("a", ["1"])] = (some w, none) ∧
      w.status = 500 ∧
      ((none : Option String) = none →
        w.body = "Opps algo salió mal. Error: " ++ invalidInputCount ++ "\n")) :=
  count_not_two [("a", ["1"])] (by decide) none noFaults none

/-- C3, as stated, fails: the query `a=1&a=x&b=2` has two parameter names and
the supplied value `x` does not parse, yet `retrieveNumbers` succeeds and both
handlers answer 200, because only the first value of each name is read. -/
theorem later_value_ignored :
    Atoi "x" = none ∧
    retrieveNumbers [("a", ["1", "x"]), ("b", ["2"])] = some (.ok (1, 2)) ∧
    (Sum (newResponseWriter none) [("a", ["1", "x"]), ("b", ["2"])]).map
        (fun w => (w.status, w.body)) = some (200, "3") ∧
    (SumDB (newResponseWriter none) noFaults (some ⟨sumsSchema, 0, []⟩)
        [("a", ["1", "x"]), ("b", ["2"])]).1.map
        (fun w => (w.status, w.body)) = some (200, "1") := by
  decide

/-- C3, amended: for a query of exactly two entries, each with at least one
value, in which the first value of at least one entry does not parse,
`retrieveNumbers` fails, and `Sum` and `SumDB` both answer with status 500 and,
when the connection accepts the write, a body that quotes a first value that
failed to parse together with the name of its parameter; `SumDB` leaves the
database as it was. -/
theorem first_value_invalid (k1 k2 v1 v2 : String) (r1 r2 : List String)
    (h : Atoi v1 = none ∨ Atoi v2 = none) (werr : Option String) (f : Faults) (db : DB) :
    ∃ key v, ((key, v) = (k1, v1) ∨ (key, v) = (k2, v2)) ∧ Atoi v = none ∧
      retrieveNumbers [(k1, v1 :: r1), (k2, v2 :: r2)] = some (.error (invalidNumber v key)) ∧
      (∃ w, Sum (newResponseWriter werr) [(k1, v1 :: r1), (k2, v2 :: r2)] = some w ∧
        w.status = 500 ∧
        (werr = none → w.body = "Opps algo salió mal. Error: " ++
          ("\"" ++ v ++ "\" no es un valor válido para \"" ++ key ++ "\"") ++ "\n")) ∧
      (∃ w, SumDB (newResponseWriter werr) f db [(k1, v1 :: r1), (k2, v2 :: r2)] = (some w, db) ∧
        w.status = 500 ∧
        (werr = none → w.body = "Opps algo salió mal. Error: " ++
          ("\"" ++ v ++ "\" no es un valor válido para \"" ++ key ++ "\"") ++ "\n")) := by
  have key_fact : ∃ key v, ((key, v) = (k1, v1) ∨ (key, v) = (k2, v2)) ∧ Atoi v = none ∧
      retrieveNumbers [(k1, v1 :: r1), (k2, v2 :: r2)]
        = some (.error (invalidNumber v key)) := by
    cases h1 : Atoi v1 with
    | none =>
      exact ⟨k1, v1, Or.inl rfl, h1, retrieveNumbers_pair_first_invalid k1 k2 v1 r1 _ h1⟩
    | some a =>
      have h2 : Atoi v2 = none := by
        rcases h with h | h
        · rw [h1] at h; cases h
        · exact h
      exact ⟨k2, v2, Or.inr rfl, h2,
        retrieveNumbers_pair_second_invalid k1 k2 v1 v2 r1 r2 a h1 h2⟩
  obtain ⟨key, v, hmem, hv, hr⟩ := key_fact
  refine ⟨key, v, hmem, hv, hr, ⟨_, Sum_of_error _ _ _ hr, httpError_new_status _ _, ?_⟩,
    ⟨_, SumDB_of_error _ f db _ _ hr, httpError_new_status _ _, ?_⟩⟩
  · intro hw; subst hw; exact httpError_new_body _
  · intro hw; subst hw; exact httpError_new_body _

/-- Witness for `first_value_invalid`: the query `a=1&b=x`. -/
theorem first_value_invalid_witness :
    ∃ key v, ((key, v) = ("a", "1") ∨ (key, v) = ("b", "x")) ∧ Atoi v = none ∧
      retrieveNumbers [("a", "1" :: []), ("b", "x" :: [])] = some (.error (invalidNumber v key)) ∧
      (∃ w, Sum (newResponseWriter none) [("a", "1" :: []), ("b", "x" :: [])] = some w ∧
        w.status = 500 ∧
        ((none : Option String) = none → w.body = "Opps algo salió mal. Error: " ++
          ("\"" ++ v ++ "\" no es un valor válido para \"" ++ key ++ "\"") ++ "\n")) ∧
      (∃ w, SumDB (newResponseWriter none) noFaults none [("a", "1" :: []), ("b", "x" :: [])]
          = (some w, none) ∧
        w.status = 500 ∧
        ((none : Option String) = none → w.body = "Opps algo salió mal. Error: " ++
          ("\"" ++ v ++ "\" no es un valor válido para \"" ++ key ++ "\"") ++ "\n")) :=
  first_value_invalid "a" "b" "1" "x" [] [] (Or.inr (by decide)) none noFaults none

/-! ## Iteration order -/

theorem perm_pair_cases {α : Type} [DecidableEq α] (e1 e2 x y : α)
    (h : List.Perm [e1, e2] [x, y]) : (x = e1 ∧ y = e2) ∨ (x = e2 ∧ y = e1) := by
  have h1 := List.cons_perm_iff_perm_erase.mp h
  obtain ⟨hm, hp⟩ := h1
  by_cases hx : e1 = x
  · subst hx
    simp at hp
    exact Or.inl ⟨rfl, hp.symm⟩
  · have hy : e1 = y := by
      simp at hm
      rcases hm with hm | hm
      · exact absurd hm hx
      · exact hm
    subst hy
    have hne : x ≠ e1 := fun hh => hx hh.symm
    rw [List.erase_cons_tail (by simpa using hne)] at hp
    simp at hp
    exact Or.inr ⟨hp.symm, rfl⟩

theorem goAdd_comm (a b : Int) : goAdd a b = goAdd b a := by
  unfold goAdd
  rw [Int.add_comm]

theorem Sum_swap (w : ResponseWriter) (q1 q2 : Values) (a b : Int)
    (h1 : retrieveNumbers q1 = some (.ok (a, b)))
    (h2 : retrieveNumbers q2 = some (.ok (b, a))) : Sum w q1 = Sum w q2 := by
  simp only [Sum, h1, h2, goAdd_comm a b]

/-- C8: for a query of exactly two entries whose first values both parse, any
other iteration order of the same entries makes `retrieveNumbers` return the
same two integers, in the same or the opposite order, and makes `Sum` produce
the identical response (status, header and body). -/
theorem Sum_order_independent (query query2 : Values) (hp : List.Perm query query2)
    (hlen : query.length = 2)
    (hparse : ∀ e ∈ query, ∃ v rest n, e.2 = v :: rest ∧ Atoi v = some n)
    (w : ResponseWriter) :
    ∃ a b, retrieveNumbers query = some (.ok (a, b)) ∧
      (retrieveNumbers query2 = some (.ok (a, b)) ∨
        retrieveNumbers query2 = some (.ok (b, a))) ∧
      Sum w query = Sum w query2 := by
  have hlen2 : query2.length = 2 := by rw [← hp.length_eq]; exact hlen
  match query, hlen with
  | [(k1, l1), (k2, l2)], _ =>
    match query2, hlen2 with
    | [x, y], _ =>
      obtain ⟨v1, r1, a, hl1, ha⟩ := hparse (k1, l1) (by simp)
      obtain ⟨v2, r2, b, hl2, hb⟩ := hparse (k2, l2) (by simp)
      simp only at hl1 hl2
      subst hl1 hl2
      have hab := retrieveNumbers_pair k1 k2 v1 v2 r1 r2 a b ha hb
      have hba := retrieveNumbers_pair k2 k1 v2 v1 r2 r1 b a hb ha
      rcases perm_pair_cases _ _ x y hp with ⟨hx, hy⟩ | ⟨hx, hy⟩
      · subst hx hy
        exact ⟨a, b, hab, Or.inl hab, rfl⟩
      · subst hx hy
        exact ⟨a, b, hab, Or.inr hba, Sum_swap w _ _ a b hab hba⟩

/-- Witness for `Sum_order_independent`: the entries of `a=4&b=5` visited in
either order. -/
theorem Sum_order_independent_witness :
    ∃ a b, retrieveNumbers [("a", ["4"]), ("b", ["5"])] = some (.ok (a, b)) ∧
      (retrieveNumbers [("b", ["5"]), ("a", ["4"])] = some (.ok (a, b)) ∨
        retrieveNumbers [("b", ["5"]), ("a", ["4"])] = some (.ok (b, a))) ∧
      Sum (newResponseWriter none) [("a", ["4"]), ("b", ["5"])]
        = Sum (newResponseWriter none) [("b", ["5"]), ("a", ["4"])] :=
  Sum_order_independent [("a", ["4"]), ("b", ["5"])] [("b", ["5"]), ("a", ["4"])]
    (List.Perm.swap _ _ _) rfl
    (by
      intro e he
      simp only [List.mem_cons, List.mem_singleton, List.not_mem_nil, or_false] at he
      rcases he with he | he
      · subst he; exact ⟨"4", [], 4, rfl, by decide⟩
      · subst he; exact ⟨"5", [], 5, rfl, by decide⟩)
    (newResponseWriter none)

/-! ## Failing writes -/

/-- C9 fails on the code: when the write of the success body fails, the status
of the response stays 200, for `HelloChameleon` and for `Sum` (here on the query
`a=1&b=2`), because the status line was written before the body and the later
`WriteHeader(500)` of `http.Error` is ignored. -/
theorem write_failure_keeps_200 (err : String) :
    (HelloChameleon (newResponseWriter (some err))).status = 200 ∧
    (Sum (newResponseWriter (some err)) [("a", ["1"]), ("b", ["2"])]).map
        (fun w => w.status) = some 200 := by
  constructor
  · rfl
  · have h : retrieveNumbers [("a", ["1"]), ("b", ["2"])] = some (.ok (1, 2)) := by decide
    simp [Sum, h, newResponseWriter, ResponseWriter.Write, ResponseWriter.WriteHeader,
      ResponseWriter.setHeader, StatusOK, httpError]

/-! ## Totality of the number parser -/

/-- C10, as stated, fails: on a mapping with two names of which the first
visited has an empty list of values, `value[0]` is out of range. -/
theorem retrieveNumbers_empty_list_faults :
    retrieveNumbers [("a", []), ("b", ["1"])] = none := by
  decide

theorem retrieveLoop_total (values : Values) (h : ∀ e ∈ values, e.2 ≠ [])
    (numbers : List Int) :
    (∃ err, retrieveLoop values numbers = some (.error err)) ∨
    (∃ out, retrieveLoop values numbers = some (.ok out) ∧
      out.length = numbers.length + values.length) := by
  induction values generalizing numbers with
  | nil => exact Or.inr ⟨numbers, rfl, by simp⟩
  | cons e rest ih =>
    obtain ⟨key, value⟩ := e
    have hne : value ≠ [] := h (key, value) (by simp)
    match value, hne with
    | v0 :: more, _ =>
      cases hv : Atoi v0 with
      | none => exact Or.inl ⟨invalidNumber v0 key, by simp [retrieveLoop, hv]⟩
      | some number =>
        have hrest : ∀ e ∈ rest, e.2 ≠ [] := fun e he => h e (by simp [he])
        rcases ih hrest (numbers ++ [number]) with ⟨err, he⟩ | ⟨out, ho, hl⟩
        · exact Or.inl ⟨err, by simp [retrieveLoop, hv, he]⟩
        · refine Or.inr ⟨out, by simp [retrieveLoop, hv, ho], ?_⟩
          simp at hl ⊢
          omega

/-- C10, amended: for every mapping in which every name has at least one value,
and for every mapping whose number of names is not 2, `retrieveNumbers` returns
either two integers or an error; in particular the indices `numbers[0]` and
`numbers[1]` are in range whenever the loop completes. -/
theorem retrieveNumbers_total (values : Values)
    (h : (∀ e ∈ values, e.2 ≠ []) ∨ values.length ≠ 2) :
    (∃ a b, retrieveNumbers values = some (.ok (a, b))) ∨
    (∃ err, retrieveNumbers values = some (.error err)) := by
  by_cases hlen : values.length = 2
  · have hne : ∀ e ∈ values, e.2 ≠ [] := by
      rcases h with h | h
      · exact h
      · exact absurd hlen h
    rcases retrieveLoop_total values hne [] with ⟨err, he⟩ | ⟨out, ho, hl⟩
    · exact Or.inr ⟨err, by simp [retrieveNumbers, hlen, he]⟩
    · rw [hlen] at hl
      match out, hl with
      | [a, b], _ => exact Or.inl ⟨a, b, by simp [retrieveNumbers, hlen, ho]⟩
  · exact Or.inr ⟨invalidInputCount, retrieveNumbers_of_length_ne values hlen⟩

/-- Witness for `retrieveNumbers_total`: the mapping of `a=7&b=oops`. -/
theorem retrieveNumbers_total_witness :
    (∃ a b, retrieveNumbers [("a", ["7"]), ("b", ["oops"])] = some (.ok (a, b))) ∨
    (∃ err, retrieveNumbers [("a", ["7"]), ("b", ["oops"])] = some (.error err)) :=
  retrieveNumbers_total [("a", ["7"]), ("b", ["oops"])]
    (Or.inl (by
      intro e he
      simp only [List.mem_cons, List.mem_singleton, List.not_mem_nil, or_false] at he
      rcases he with he | he <;> subst he <;> simp))

/-! ## Sum store -/

theorem SumDB_successful (c : Call) (t : Table) (a b : Int)
    (hq : retrieveNumbers c.query = some (.ok (a, b))) (hs : c.successful) :
    SumDB (newResponseWriter c.writeErr) c.faults (some t) c.query
      = (some { header := [("Content-Type", "text/plain; charset=utf-8")],
                wroteHeader := true, status := 200,
                sentHeader := [("Content-Type", "text/plain; charset=utf-8")],
                body := Itoa ((t.rows.length + 1 : Nat) : Int), writeErr := none },
         some { schema := t.schema, seq := t.seq + 1,
                rows := t.rows ++ [{ id := t.seq + 1, first_number := a,
                                     second_number := b, total := goAdd a b }] }) := by
  obtain ⟨_, ho, hp, he, hqe, hn, hsc, hw⟩ := hs
  simp [SumDB, hq, registerSumInDB, ho, hp, he, hqe, hn, hsc, hw, newResponseWriter,
    ResponseWriter.Write, ResponseWriter.WriteHeader, ResponseWriter.setHeader, StatusOK]

theorem serveSumDB_successful (calls : List Call) (t : Table)
    (hs : ∀ c ∈ calls, c.successful) :
    ∃ t2, (serveSumDB (some t) calls).1 = some t2 ∧
      t2.rows.length = t.rows.length + calls.length ∧
      ∀ i, i < calls.length → ∃ w, (serveSumDB (some t) calls).2[i]? = some (some w) ∧
        w.status = 200 ∧ w.body = Itoa ((t.rows.length + i + 1 : Nat) : Int) := by
  induction calls generalizing t with
  | nil => exact ⟨t, rfl, by simp, fun i hi => absurd hi (by simp)⟩
  | cons c cs ih =>
    have hc : c.successful := hs c (by simp)
    obtain ⟨a, b, hq⟩ := hc.1
    have hstep := SumDB_successful c t a b hq hc
    obtain ⟨t2, h1, h2, h3⟩ := ih
      { schema := t.schema, seq := t.seq + 1,
        rows := t.rows ++ [{ id := t.seq + 1, first_number := a,
                             second_number := b, total := goAdd a b }] }
      (fun c2 hc2 => hs c2 (by simp [hc2]))
    refine ⟨t2, by simp only [serveSumDB, hstep, h1], ?_, ?_⟩
    · simp at h2 ⊢; omega
    · intro i hi
      cases i with
      | zero =>
        refine ⟨{ header := [("Content-Type", "text/plain; charset=utf-8")],
                  wroteHeader := true, status := 200,
                  sentHeader := [("Content-Type", "text/plain; charset=utf-8")],
                  body := Itoa ((t.rows.length + 1 : Nat) : Int), writeErr := none },
          ?_, rfl, rfl⟩
        simp only [serveSumDB, hstep, List.getElem?_cons_zero]
      | succ j =>
        obtain ⟨w, hw1, hw2, hw3⟩ := h3 j (by simpa using hi)
        refine ⟨w, ?_, hw2, ?_⟩
        · simp only [serveSumDB, hstep]
          simpa using hw1
        · rw [hw3]
          congr 2
          simp
          omega

/-- C4: starting from a table without rows, after a serial run of `N ≥ 1`
successful `SumDB` calls (no `Reset` in between) the table holds exactly `N`
rows, and the response of the `N`-th call has status 200 and, as body, the
decimal string of `N`. -/
theorem serial_SumDB_count (t : Table) (ht : t.rows = []) (calls : List Call)
    (hN : 1 ≤ calls.length) (hs : ∀ c ∈ calls, c.successful) :
    ∃ t2 w, (serveSumDB (some t) calls).1 = some t2 ∧
      t2.rows.length = calls.length ∧
      (serveSumDB (some t) calls).2.getLast? = some (some w) ∧
      w.status = 200 ∧ w.body = Itoa (calls.length : Int) := by
  obtain ⟨t2, h1, h2, h3⟩ := serveSumDB_successful calls t hs
  obtain ⟨w, hw1, hw2, hw3⟩ := h3 (calls.length - 1) (by omega)
  have hlen : (serveSumDB (some t) calls).2.length = calls.length := by
    clear h1 h2 h3 hw1 hw2 hw3 hs hN ht
    generalize (some t : DB) = db
    induction calls generalizing db with
    | nil => rfl
    | cons c cs ih => simp [serveSumDB, ih]
  refine ⟨t2, w, h1, by simpa [ht] using h2, ?_, hw2, ?_⟩
  · rw [List.getLast?_eq_getElem?, hlen]
    exact hw1
  · rw [hw3, ht]
    congr 1
    simp
    omega

/-- Witness for `serial_SumDB_count`: the requests `a=4&b=5` and `a=1&b=1` on a
table without rows. -/
theorem serial_SumDB_count_witness :
    ∃ t2 w,
      (serveSumDB (some ⟨sumsSchema, 0, []⟩)
        [⟨[("a", ["4"]), ("b", ["5"])], noFaults, none⟩,
         ⟨[("a", ["1"]), ("b", ["1"])], noFaults, none⟩]).1 = some t2 ∧
      t2.rows.length
        = [(⟨[("a", ["4"]), ("b", ["5"])], noFaults, none⟩ : Call),
           ⟨[("a", ["1"]), ("b", ["1"])], noFaults, none⟩].length ∧
      (serveSumDB (some ⟨sumsSchema, 0, []⟩)
        [⟨[("a", ["4"]), ("b", ["5"])], noFaults, none⟩,
         ⟨[("a", ["1"]), ("b", ["1"])], noFaults, none⟩]).2.getLast? = some (some w) ∧
      w.status = 200 ∧
      w.body = Itoa ([(⟨[("a", ["4"]), ("b", ["5"])], noFaults, none⟩ : Call),
           ⟨[("a", ["1"]), ("b", ["1"])], noFaults, none⟩].length : Int) :=
  serial_SumDB_count ⟨sumsSchema, 0, []⟩ rfl
    [⟨[("a", ["4"]), ("b", ["5"])], noFaults, none⟩,
     ⟨[("a", ["1"]), ("b", ["1"])], noFaults, none⟩]
    (by decide)
    (by
      intro c hc
      simp only [List.mem_cons, List.mem_singleton, List.not_mem_nil, or_false] at hc
      rcases hc with hc | hc
      · subst hc
        exact ⟨⟨4, 5, by decide⟩, rfl, rfl, rfl, rfl, rfl, rfl, rfl⟩
      · subst hc
        exact ⟨⟨1, 1, by decide⟩, rfl, rfl, rfl, rfl, rfl, rfl, rfl⟩)

/-! ## The stored total -/

/-- Property kept by every store operation: each row's total is the Go sum of
its two operands. -/
theorem registerSumInDB_rows (f : Faults) (t : Table) (a b : Int) (t2 : Table)
    (h : (registerSumInDB f (some t) a b).1 = some t2)
    (inv : ∀ r ∈ t.rows, r.total = goAdd r.first_number r.second_number) :
    ∀ r ∈ t2.rows, r.total = goAdd r.first_number r.second_number := by
  have key : t2 = t ∨ t2 = Table.mk t.schema (t.seq + 1)
      (t.rows ++ [SumRecord.mk (t.seq + 1) a b (goAdd a b)]) := by
    unfold registerSumInDB at h
    cases ho : f.openErr <;> cases hp : f.prepareErr <;> cases he : f.execErr <;>
      cases hq : f.queryErr <;> cases hn : f.nextOk <;> cases hs : f.scanErr <;>
      simp [ho, hp, he, hq, hn, hs] at h <;> simp [← h]
  rcases key with rfl | rfl
  · exact inv
  · intro r hr
    simp only [List.mem_append, List.mem_singleton] at hr
    rcases hr with hr | hr
    · exact inv r hr
    · subst hr; rfl

theorem SumDB_state (w : ResponseWriter) (f : Faults) (db : DB) (query : Values) :
    (SumDB w f db query).2 = db ∨
    ∃ a b, (SumDB w f db query).2 = (registerSumInDB f db a b).1 := by
  unfold SumDB
  cases hr : retrieveNumbers query with
  | none => exact Or.inl rfl
  | some res =>
    cases res with
    | error err => exact Or.inl rfl
    | ok ab =>
      obtain ⟨a, b⟩ := ab
      refine Or.inr ⟨a, b, ?_⟩
      simp only
      cases hreg : registerSumInDB f db a b with
      | mk db1 out =>
        cases out with
        | error err => rfl
        | ok total =>
          simp only
          cases hw : ((w.setHeader "Content-Type" "text/plain; charset=utf-8").WriteHeader
            StatusOK).Write (Itoa total) with
          | mk w3 e => cases e <;> rfl

theorem registerSumInDB_none (f : Faults) (a b : Int) :
    (registerSumInDB f none a b).1 = none := by
  unfold registerSumInDB
  cases f.openErr <;> cases f.prepareErr <;> rfl

theorem Reset_state (w : ResponseWriter) (f : Faults) (db : DB) :
    (Reset w f db).2 = db ∨ ∃ t, db = some t ∧ (Reset w f db).2 = some { t with rows := [] } := by
  unfold Reset
  cases f.openErr with
  | some err => exact Or.inl rfl
  | none =>
    cases f.execErr with
    | some err => exact Or.inl rfl
    | none =>
      cases db with
      | none => exact Or.inl rfl
      | some t =>
        refine Or.inr ⟨t, rfl, ?_⟩
        cases f.affectedErr <;> rfl

theorem Reachable_goAdd (db : DB) (h : Reachable db) :
    ∀ t, db = some t → ∀ r ∈ t.rows, r.total = goAdd r.first_number r.second_number := by
  induction h with
  | empty t0 h0 =>
    intro t ht r hr
    cases ht
    rw [h0] at hr
    cases hr
  | sumDB db w f query _ ih =>
    intro t ht
    rcases SumDB_state w f db query with hs | ⟨a, b, hs⟩
    · exact ih t (hs ▸ ht)
    · rw [hs] at ht
      cases db with
      | none => rw [registerSumInDB_none] at ht; cases ht
      | some t0 => exact registerSumInDB_rows f t0 a b t ht (ih t0 rfl)
  | reset db w f _ ih =>
    intro t ht
    rcases Reset_state w f db with hs | ⟨t0, _, hs⟩
    · exact ih t (hs ▸ ht)
    · rw [hs] at ht
      cases ht
      intro r hr
      cases hr

/-- C5, as stated, fails: the request `a=9223372036854775807&b=1` on a table
without rows stores a row whose total, `-9223372036854775808`, is not the
integer sum of its two operands. -/
theorem stored_total_overflow :
    Reachable (SumDB (newResponseWriter none) noFaults (some ⟨sumsSchema, 0, []⟩)
      [("a", ["9223372036854775807"]), ("b", ["1"])]).2 ∧
    (SumDB (newResponseWriter none) noFaults (some ⟨sumsSchema, 0, []⟩)
      [("a", ["9223372036854775807"]), ("b", ["1"])]).2
      = some ⟨sumsSchema, 1, [⟨1, 9223372036854775807, 1, -9223372036854775808⟩]⟩ ∧
    (-9223372036854775808 : Int) ≠ 9223372036854775807 + 1 :=
  ⟨Reachable.sumDB _ _ _ _ (Reachable.empty ⟨sumsSchema, 0, []⟩ rfl), by decide, by decide⟩

/-- C5, amended: in every state reachable from a table without rows by `SumDB`
and `Reset` requests, every stored row's total is the sum of its two operands
reduced to a 64-bit two's complement integer, hence the sum itself whenever
that sum lies in the range of `int`. -/
theorem stored_total_invariant (db : DB) (h : Reachable db) (t : Table) (ht : db = some t)
    (r : SumRecord) (hr : r ∈ t.rows) :
    r.total = wrapInt (r.first_number + r.second_number) ∧
    (fitsInt (r.first_number + r.second_number) →
      r.total = r.first_number + r.second_number) := by
  have hg := Reachable_goAdd db h t ht r hr
  refine ⟨hg, fun hf => ?_⟩
  rw [hg, goAdd, wrapInt_of_fitsInt _ hf]

/-- Witness for `stored_total_invariant`: the row stored by `a=2&b=3`. -/
theorem stored_total_invariant_witness :
    (⟨1, 2, 3, 5⟩ : SumRecord).total
      = wrapInt ((⟨1, 2, 3, 5⟩ : SumRecord).first_number
          + (⟨1, 2, 3, 5⟩ : SumRecord).second_number) ∧
    (fitsInt ((⟨1, 2, 3, 5⟩ : SumRecord).first_number
          + (⟨1, 2, 3, 5⟩ : SumRecord).second_number) →
      (⟨1, 2, 3, 5⟩ : SumRecord).total
        = (⟨1, 2, 3, 5⟩ : SumRecord).first_number
          + (⟨1, 2, 3, 5⟩ : SumRecord).second_number) :=
  stored_total_invariant
    (SumDB (newResponseWriter none) noFaults (some ⟨sumsSchema, 0, []⟩)
      [("a", ["2"]), ("b", ["3"])]).2
    (Reachable.sumDB _ _ _ _ (Reachable.empty ⟨sumsSchema, 0, []⟩ rfl))
    ⟨sumsSchema, 1, [⟨1, 2, 3, 5⟩]⟩ (by decide) ⟨1, 2, 3, 5⟩ (by simp)

/-! ## `Reset` and schema initialisation -/

/-- C6: for every state of the table `sums`, a `Reset` whose storage calls
succeed answers 204 with an empty body and leaves the table without rows; a
successful `SumDB` call that follows at once, with operands 2 and 3 in either
order, answers with status 200 and body `1` and leaves exactly one row, holding
those operands and the total 5. -/
theorem Reset_then_SumDB (t : Table) (werr : Option String) (f : Faults)
    (ho : f.openErr = none) (he : f.execErr = none) (ha : f.affectedErr = none)
    (c : Call) (hc : c.successful) (a b : Int)
    (hq : retrieveNumbers c.query = some (.ok (a, b)))
    (hab : (a = 2 ∧ b = 3) ∨ (a = 3 ∧ b = 2)) :
    ∃ wr t1, Reset (newResponseWriter werr) f (some t) = (wr, some t1) ∧
      wr.status = 204 ∧ wr.body = "" ∧ t1.rows = [] ∧
      ∃ w t2 r, SumDB (newResponseWriter c.writeErr) c.faults (some t1) c.query
          = (some w, some t2) ∧
        w.status = 200 ∧ w.body = "1" ∧ t2.rows = [r] ∧
        r.first_number = a ∧ r.second_number = b ∧ r.total = 5 := by
  refine ⟨(newResponseWriter werr).WriteHeader StatusNoContent,
    Table.mk t.schema t.seq [], ?_, rfl, rfl, rfl, ?_⟩
  · simp [Reset, ho, he, ha]
  · refine ⟨_, _, SumRecord.mk (t.seq + 1) a b (goAdd a b),
      SumDB_successful c (Table.mk t.schema t.seq []) a b hq hc, rfl, ?_, ?_, rfl, rfl, ?_⟩
    · show Itoa (((0 + 1 : Nat) : Nat) : Int) = "1"
      decide
    · rfl
    · show goAdd a b = 5
      rcases hab with ⟨h1, h2⟩ | ⟨h1, h2⟩ <;> subst h1 h2 <;> decide

/-- Witness for `Reset_then_SumDB`: a table of two rows, then `a=2&b=3`. -/
theorem Reset_then_SumDB_witness :
    ∃ wr t1, Reset (newResponseWriter none) noFaults
        (some ⟨sumsSchema, 2, [⟨1, 4, 5, 9⟩, ⟨2, 1, 1, 2⟩]⟩) = (wr, some t1) ∧
      wr.status = 204 ∧ wr.body = "" ∧ t1.rows = [] ∧
      ∃ w t2 r, SumDB (newResponseWriter (Call.mk [("a", ["2"]), ("b", ["3"])] noFaults none).writeErr)
          (Call.mk [("a", ["2"]), ("b", ["3"])] noFaults none).faults (some t1)
          (Call.mk [("a", ["2"]), ("b", ["3"])] noFaults none).query
          = (some w, some t2) ∧
        w.status = 200 ∧ w.body = "1" ∧ t2.rows = [r] ∧
        r.first_number = 2 ∧ r.second_number = 3 ∧ r.total = 5 :=
  Reset_then_SumDB ⟨sumsSchema, 2, [⟨1, 4, 5, 9⟩, ⟨2, 1, 1, 2⟩]⟩ none noFaults rfl rfl rfl
    (Call.mk [("a", ["2"]), ("b", ["3"])] noFaults none)
    ⟨⟨2, 3, by decide⟩, rfl, rfl, rfl, rfl, rfl, rfl, rfl⟩ 2 3 (by decide)
    (Or.inl ⟨rfl, rfl⟩)

/-- C7: when `createSumTableIfDoesntExist` succeeds on a state of the store,
running it again under the same storage conditions succeeds too and yields the
state the first run yielded; and when the table `sums` already exists, the run
leaves the table, its schema, row-id counter and rows, exactly as it was. -/
theorem createSumTable_idempotent (f : Faults) (db : DB)
    (h : (createSumTableIfDoesntExist f db).2 = none) :
    createSumTableIfDoesntExist f (createSumTableIfDoesntExist f db).1
      = ((createSumTableIfDoesntExist f db).1, none) ∧
    (∃ t, (createSumTableIfDoesntExist f db).1 = some t) ∧
    (∀ t, db = some t → (createSumTableIfDoesntExist f db).1 = some t) := by
  unfold createSumTableIfDoesntExist at h ⊢
  cases ho : f.openErr with
  | some err => simp [ho] at h
  | none =>
    cases he : f.execErr with
    | some err => simp [ho, he] at h
    | none =>
      cases db with
      | none => simp
      | some t => simp

/-- Witness for `createSumTable_idempotent`: a database file without table. -/
theorem createSumTable_idempotent_witness :
    createSumTableIfDoesntExist noFaults (createSumTableIfDoesntExist noFaults none).1
      = ((createSumTableIfDoesntExist noFaults none).1, none) ∧
    (∃ t, (createSumTableIfDoesntExist noFaults none).1 = some t) ∧
    (∀ t, (none : DB) = some t → (createSumTableIfDoesntExist noFaults none).1 = some t) :=
  createSumTable_idempotent noFaults none rfl

end Servr
